import Mathlib

/-!
Verification of the KubePlayground validation-worker specification against
the repository's frontend sources. Pure fragments of the TypeScript
components are embedded as Lean functions:

* `Console.tsx` — the `ValidationResult` record, the status-to-icon
  rendering and the result-list rendering of the console panel;
* the `App` component (its source is embedded in `docs/Logging.md`) — the
  application state, `runValidation`, and the effect that runs when the
  current exercise index changes;
* `QuizPanel` (second document of `Console.tsx`) — `toggleOption`;
* `StepsPanel.tsx` — `toggleTask` over the `completed` record;
* `data/mockExercises` (`MOCK_VALIDATION_RESULTS`, `EXERCISES`).

Components of the design document that have no implementation under the
repository's sources (the Verification Evaluator and the Event Publisher
of the worker subsystem) are modelled from the specification's words; each
such definition carries a doc comment saying so.

JavaScript objects used as string-keyed dictionaries
(`{ ...prev, [k]: v }`) are embedded as association lists with the
spread-update semantics `jsSet` and the lookup semantics `jsGet`;
JavaScript truthiness of a possibly-absent boolean entry is `Option.getD
false`, and of a possibly-absent string entry `Option.getD ""`.
-/

namespace KP

/-- JavaScript property lookup `m[k]` on an object embedded as an
association list: the value at the first matching key, if any. -/
def jsGet {α β : Type} [BEq α] (m : List (α × β)) (k : α) : Option β :=
  (m.find? (fun p => p.1 == k)).map (fun p => p.2)

/-- JavaScript spread update `{ ...m, [k]: v }`: an existing key keeps its
position and gets the new value; a fresh key is appended at the end. -/
def jsSet {α β : Type} [BEq α] (m : List (α × β)) (k : α) (v : β) : List (α × β) :=
  if m.any (fun p => p.1 == k) then
    m.map (fun p => if p.1 == k then (k, v) else p)
  else m ++ [(k, v)]

theorem jsGet_jsSet_same {α β : Type} [BEq α] [LawfulBEq α]
    (m : List (α × β)) (k : α) (v : β) : jsGet (jsSet m k v) k = some v := by
  unfold jsSet
  by_cases h : m.any (fun p => p.1 == k) = true
  · simp only [h, if_true, jsGet, List.find?_map]
    have hpred : ((fun p : α × β => p.1 == k) ∘ fun p : α × β =>
        if p.1 == k then (k, v) else p) = fun p : α × β => p.1 == k := by
      funext p
      by_cases hp : (p.1 == k) = true
      · simp [Function.comp, hp]
      · simp [Function.comp, hp]
    rw [hpred]
    rcases hfind : m.find? (fun p => p.1 == k) with _ | q
    · rw [List.find?_eq_none] at hfind
      rcases List.any_eq_true.mp h with ⟨x, hx, hxk⟩
      exact absurd hxk (hfind x hx)
    · have hq := List.find?_some hfind
      simp [hfind, hq]
  · simp only [h, if_false, jsGet, List.find?_append]
    have hnone : m.find? (fun p => p.1 == k) = none := by
      rw [List.find?_eq_none]
      intro x hx hxk
      exact h (List.any_eq_true.mpr ⟨x, hx, hxk⟩)
    simp [hnone, List.find?]

theorem jsGet_jsSet_ne {α β : Type} [BEq α] [LawfulBEq α]
    (m : List (α × β)) (k k' : α) (v : β) (h : k' ≠ k) :
    jsGet (jsSet m k v) k' = jsGet m k' := by
  unfold jsSet
  by_cases hany : m.any (fun p => p.1 == k) = true
  · simp only [hany, if_true, jsGet, List.find?_map]
    have hpred : ((fun p : α × β => p.1 == k') ∘ fun p : α × β =>
        if p.1 == k then (k, v) else p) = fun p : α × β => p.1 == k' := by
      funext p
      by_cases hp : (p.1 == k) = true
      · have hpk : p.1 = k := eq_of_beq hp
        have h1 : (k == k') = false := beq_eq_false_iff_ne.mpr (fun hk => h hk.symm)
        have h2 : (p.1 == k') = false := by rw [hpk]; exact h1
        simp [Function.comp, hp, h1, h2]
      · simp [Function.comp, hp]
    rw [hpred]
    rcases hfind : m.find? (fun p => p.1 == k') with _ | q
    · simp [hfind]
    · have hq := List.find?_some hfind
      have hqk : (q.1 == k) = false := by
        rcases hbk : (q.1 == k) with _ | _
        · rfl
        · exact absurd ((eq_of_beq hq).symm.trans (eq_of_beq hbk)) h
      simp [hfind, hqk]
  · simp only [hany, if_false, jsGet, List.find?_append]
    have hlast : List.find? (fun p : α × β => p.1 == k') [(k, v)] = none := by
      simp [List.find?, beq_eq_false_iff_ne.mpr (fun hk : k = k' => h hk.symm)]
    simp [hlast]

/-! ## Console.tsx -/

/-- The `ValidationResult` interface of `Console.tsx`: its `status` is the
TypeScript string-literal union written there, embedded as a `String`
together with the acceptance predicate `consoleStatusOK` below. -/
structure ValidationResult where
  step : String
  status : String
  message : String
deriving Repr, DecidableEq

/-- Membership in the TypeScript type of `ValidationResult.status` in
`Console.tsx` line 6: the union `'passed' | 'failed'`. -/
def consoleStatusOK (s : String) : Bool :=
  s == "passed" || s == "failed"

/-- Modelled from the spec: the Step Result status set of the data model,
`status` being one of passed, failed, errored. -/
def specStatusOK (s : String) : Bool :=
  s == "passed" || s == "failed" || s == "errored"

/-- The two icons a console entry can carry (`CheckCircle` and `XCircle`
in `Console.tsx`). -/
inductive Icon where
  | check : Icon
  | cross : Icon
deriving Repr, DecidableEq

/-- Console.tsx line 50: `r.status === 'passed' ? <CheckCircle/> : <XCircle/>`. -/
def renderIcon (r : ValidationResult) : Icon :=
  if r.status == "passed" then Icon.check else Icon.cross

/-- The data content of one rendered console row. -/
structure ConsoleEntry where
  icon : Icon
  step : String
  message : String
deriving Repr, DecidableEq

/-- One rendered row of the console result list (icon, step title, message). -/
def renderEntry (r : ValidationResult) : ConsoleEntry :=
  { icon := renderIcon r, step := r.step, message := r.message }

/-- Console.tsx lines 46-66: `validationResults.map((r, i) => ...)` — one
rendered row per validation result, in list order. -/
def renderConsole (rs : List ValidationResult) : List ConsoleEntry :=
  rs.map renderEntry

/-- The `MOCK_VALIDATION_RESULTS` constant of `data/mockExercises`. -/
def MOCK_VALIDATION_RESULTS : List ValidationResult :=
  [⟨"Check Deployment Exists", "passed", "Deployment \'nginx-deployment\' found."⟩,
   ⟨"Check Replicas", "failed", "Expected 3 replicas, found 1."⟩,
   ⟨"Check Image", "failed", "Image is \'nginxx:1.14.2\', expected \'nginx:1.14.2\'."⟩]

/-! ## The App component (source embedded in docs/Logging.md) -/

/-- The `useState` cells of the `App` component. -/
structure AppState where
  currentExerciseIdx : Nat
  leftWidth : Nat
  code : String
  consoleOpen : Bool
  activeRightTab : String
  theme : String
  validating : Bool
  validationResults : Option (List ValidationResult)
deriving Repr, DecidableEq

/-- Synchronous part of `runValidation`: `setValidating(true);
setConsoleOpen(true); setValidationResults(null)`. -/
def runValidationStart (s : AppState) : AppState :=
  { s with validating := true, consoleOpen := true, validationResults := none }

/-- The `setTimeout` callback of `runValidation`: `setValidating(false);
setValidationResults(MOCK_VALIDATION_RESULTS)`. -/
def runValidationTimeout (s : AppState) : AppState :=
  { s with validating := false, validationResults := some MOCK_VALIDATION_RESULTS }

/-- The complete effect of one `runValidation` call on the App state: the
synchronous part followed by the timeout callback. -/
def runValidation (s : AppState) : AppState :=
  runValidationTimeout (runValidationStart s)

/-! ## QuizPanel (second document of Console.tsx) -/

/-- QuizPanel `toggleOption`: returns the `answers` record unchanged when
`showResults` is set, otherwise records `optionId` as the answer of
question `qId` (`{ ...prev, [qId]: optionId }`). -/
def toggleOption (showResults : Bool) (answers : List (Nat × String))
    (qId : Nat) (optionId : String) : List (Nat × String) :=
  if showResults then answers else jsSet answers qId optionId

/-! ## StepsPanel.tsx -/

/-- JavaScript truthiness of `completed[id]` in `StepsPanel.tsx`: an
absent entry reads as `false`. -/
def completedStatus (completed : List (String × Bool)) (id : String) : Bool :=
  (jsGet completed id).getD false

/-- StepsPanel `toggleTask`: `{ ...prev, [id]: !prev[id] }` — the entry of
`id` becomes the negation of its current truthiness. -/
def toggleTask (completed : List (String × Bool)) (id : String) :
    List (String × Bool) :=
  jsSet completed id (!(completedStatus completed id))

/-! ## Claim theorems on the frontend embedding -/

/-- C1, counterexample: the claim says the console status set is exactly
the three spec values passed, failed, errored, with errored surfaced
distinctly from failed. On the code, the status "errored" is in the spec
set but outside the type accepted by `Console.tsx`, and a result carrying
it would render with the very same icon as a failed one. -/
theorem errored_status_not_accepted :
    specStatusOK "errored" = true ∧ consoleStatusOK "errored" = false ∧
    renderIcon ⟨"Check Image", "errored", "m"⟩ =
      renderIcon ⟨"Check Image", "failed", "m"⟩ := by
  decide

/-- C1, amended: every status the Console accepts (in particular every
status of `MOCK_VALIDATION_RESULTS`) is one of exactly the two values
passed and failed, and every result whose status is not passed renders
with the single failure icon — there is no distinct errored rendering. -/
theorem console_status_two_values :
    (∀ s, consoleStatusOK s = true ↔ s = "passed" ∨ s = "failed") ∧
    (∀ r ∈ MOCK_VALIDATION_RESULTS, consoleStatusOK r.status = true) ∧
    (∀ r : ValidationResult, r.status ≠ "passed" → renderIcon r = Icon.cross) := by
  refine ⟨fun s => ?_, ?_, fun r hr => ?_⟩
  · simp [consoleStatusOK]
  · decide
  · simp [renderIcon, hr]

/-- C1, witness: `console_status_two_values` applied at the status
"failed", at the second mock result, and at a result with status
"errored". -/
theorem console_status_two_values_app :
    (consoleStatusOK "failed" = true ↔ "failed" = "passed" ∨ "failed" = "failed") ∧
    consoleStatusOK
      (ValidationResult.mk "Check Replicas" "failed"
        "Expected 3 replicas, found 1.").status = true ∧
    renderIcon ⟨"s", "errored", "m"⟩ = Icon.cross :=
  ⟨console_status_two_values.1 "failed",
   console_status_two_values.2.1
     (ValidationResult.mk "Check Replicas" "failed" "Expected 3 replicas, found 1.")
     (by decide),
   console_status_two_values.2.2 ⟨"s", "errored", "m"⟩ (by decide)⟩

/-- C2: `runValidation` is a total function of the App state (no code path
raises), and it yields exactly one terminal outcome — the validating flag
cleared and exactly one final result set published. -/
theorem runValidation_terminates_uniquely (s : AppState) :
    (runValidation s).validating = false ∧
    (runValidation s).validationResults = some MOCK_VALIDATION_RESULTS := by
  constructor <;> rfl

/-- C8: once `showResults` is set, `toggleOption` is the identity on the
answers record, for every question id and option id. -/
theorem toggleOption_frozen_after_submit (answers : List (Nat × String))
    (qId : Nat) (optionId : String) :
    toggleOption true answers qId optionId = answers := by
  simp [toggleOption]

/-- C9: toggling the same task twice restores every task's completion
status, and toggling one task never changes the status of another. -/
theorem toggleTask_involutive_frame (m : List (String × Bool)) (id k : String) :
    completedStatus (toggleTask (toggleTask m id) id) k = completedStatus m k ∧
    (k ≠ id → completedStatus (toggleTask m id) k = completedStatus m k) := by
  constructor
  · by_cases hk : k = id
    · subst hk
      unfold toggleTask completedStatus
      rw [jsGet_jsSet_same]
      rw [show (jsGet (jsSet m k (!(jsGet m k).getD false)) k) = some (!(jsGet m k).getD false)
        from jsGet_jsSet_same m k _]
      simp
    · unfold toggleTask completedStatus
      rw [jsGet_jsSet_ne _ _ _ _ hk, jsGet_jsSet_ne _ _ _ _ hk]
  · intro hk
    unfold toggleTask completedStatus
    rw [jsGet_jsSet_ne _ _ _ _ hk]

/-- C9, witness: `toggleTask_involutive_frame` at the concrete record
`[("t1", true)]`, toggled task `"t1"`, observed task `"t2"`. -/
theorem toggleTask_involutive_frame_app :
    completedStatus (toggleTask (toggleTask [("t1", true)] "t1") "t1") "t2" =
      completedStatus [("t1", true)] "t2" ∧
    completedStatus (toggleTask [("t1", true)] "t1") "t2" =
      completedStatus [("t1", true)] "t2" :=
  ⟨(toggleTask_involutive_frame [("t1", true)] "t1" "t2").1,
   (toggleTask_involutive_frame [("t1", true)] "t1" "t2").2 (by decide)⟩

/-! ## The exercise catalog (data/mockExercises) and the exercise-change effect -/

/-- The starter manifest of exercise ex1 in `data/mockExercises`. -/
def ex1Template : String :=
  "apiVersion: apps/v1\nkind: Deployment\nmetadata:\n  name: nginx-deployment\n  labels:\n    app: nginx-deployment\nspec:\n  replicas: 1\n  selector:\n    matchLabels:\n      app: nginx-deployment\n  template:\n    metadata:\n      labels:\n        app: wrong-label\n    spec:\n      containers:\n      - name: nginx\n        image: nginxx:1.14.2 # Typo here\n        ports:\n        - containerPort: 8080 # Wrong port\n"

/-- One entry of the `EXERCISES` array: the fields the App component's
state transitions read (`kind` is the `type` field of the source; the
purely presentational fields — description, tags, steps, quizData — are
carried opaquely by the UI and read by no embedded operation). -/
structure Exercise where
  id : String
  kind : String
  title : String
  topic : String
  template : Option String
deriving Repr, DecidableEq

/-- The `EXERCISES` array of `data/mockExercises`: the code exercise ex1
(with its starter template) and the quiz exercise ex2 (no template). -/
def EXERCISES : List Exercise :=
  [⟨"ex1", "code", "1. Debug Broken Deployment", "Deployment", some ex1Template⟩,
   ⟨"ex2", "quiz", "2. Pod Lifecycle Knowledge", "Pods", none⟩]

/-- The `useEffect` body of `App` that runs when the current exercise
changes: `setCode(currentExercise.template || ''); setValidationResults(null);
setActiveRightTab('code')`. -/
def exerciseChangeEffect (s : AppState) (ex : Exercise) : AppState :=
  { s with code := ex.template.getD "", validationResults := none,
           activeRightTab := "code" }

/-- Selecting the exercise at `idx` (via `setCurrentExerciseIdx` and the
reset effect above); `none` when the index is out of range. -/
def selectExercise (s : AppState) (idx : Nat) : Option AppState :=
  (EXERCISES[idx]?).map
    (fun ex => exerciseChangeEffect { s with currentExerciseIdx := idx } ex)

/-- The initial App state: exercise 0, its template as the editor code,
console open, code tab active, dark theme, no validation running. -/
def appInit : AppState :=
  ⟨0, 40, ex1Template, true, "code", "dark", false, none⟩

/-! ## Spec-modelled Verification Evaluator

The design document's Verification Evaluator has no implementation under
the repository's sources (only the mocked frontend exists); the
definitions below are modelled from the specification's words (§3, §4.3). -/

/-- Modelled from the spec: the predicate of an Assertion — one of exists,
field_equals, ready_replicas_at_least, log_contains, condition_true. -/
inductive Predicate where
  | resExists : Predicate
  | fieldEquals : String → String → Predicate
  | readyReplicasAtLeast : Nat → Predicate
  | logContains : String → Predicate
  | conditionTrue : String → Predicate
deriving Repr, DecidableEq

/-- Modelled from the spec: an Assertion — a target selector within the
scope plus a predicate with its expected value. -/
structure Assertion where
  targetSelector : String
  predicate : Predicate
deriving Repr, DecidableEq

/-- Modelled from the spec: the Step Result status set passed, failed,
errored. -/
inductive Status3 where
  | passed : Status3
  | failed : Status3
  | errored : Status3
deriving Repr, DecidableEq

/-- Modelled from the spec: a Step Result — the judged step, its status,
and the observed value or captured error text. -/
structure StepResult where
  step : String
  status : Status3
  observed : String
deriving Repr, DecidableEq

/-- Modelled from the spec: a snapshot of one live resource — its fields,
observed ready-replica count, status conditions and container logs. -/
structure Resource where
  fields : List (String × String)
  readyReplicas : Nat
  conditions : List (String × Bool)
  logs : List String
deriving Repr, DecidableEq

/-- Modelled from the spec: the live cluster state a Verify job inspects —
whether the cluster API is reachable, and the resources in the scope keyed
by their selector. -/
structure LiveState where
  reachable : Bool
  resources : List (String × Resource)
deriving Repr, DecidableEq

/-- Resource lookup by target selector within the scope. -/
def lookupResource (st : LiveState) (sel : String) : Option Resource :=
  jsGet st.resources sel

/-- Substring containment on character lists. -/
def listContains (s pat : List Char) : Bool :=
  (List.range (s.length + 1)).any (fun i => (s.drop i).take pat.length == pat)

/-- Substring containment on strings (log_contains semantics). -/
def strContains (s pat : String) : Bool :=
  listContains s.toList pat.toList

/-- Modelled from the spec (§4.3 predicate semantics): judge one predicate
against a resource that was inspected, returning the status and the
observed value; a missing field fails, it does not error. -/
def applyPredicate (p : Predicate) (r : Resource) : Status3 × String :=
  match p with
  | .resExists => (.passed, "present")
  | .fieldEquals f v =>
    match jsGet r.fields f with
    | none => (.failed, "field " ++ f ++ " missing")
    | some w => (if w == v then .passed else .failed, w)
  | .readyReplicasAtLeast n =>
    (if n ≤ r.readyReplicas then .passed else .failed, toString r.readyReplicas)
  | .logContains pat =>
    (if r.logs.any (fun line => strContains line pat) then .passed else .failed,
     "logs inspected")
  | .conditionTrue c =>
    match jsGet r.conditions c with
    | none => (.failed, "condition " ++ c ++ " absent")
    | some b => (if b then .passed else .failed, toString b)

/-- Modelled from the spec: evaluate one Assertion. A step errors exactly
when the target could not be inspected at all (cluster API unreachable); a
target that was inspected and found absent or mismatching fails (§4.3
error-versus-fail distinction). -/
def evalAssertion (st : LiveState) (a : Assertion) : StepResult :=
  if st.reachable then
    match lookupResource st a.targetSelector with
    | some r =>
      ⟨a.targetSelector, (applyPredicate a.predicate r).1,
       (applyPredicate a.predicate r).2⟩
    | none => ⟨a.targetSelector, .failed, "resource absent"⟩
  else ⟨a.targetSelector, .errored, "cluster API unreachable"⟩

/-- Modelled from the spec: `evaluate(scope, assertions)` judges the
assertions in the order given, independently — later assertions never
depend on earlier outcomes. -/
def evaluate (st : LiveState) (al : List Assertion) : List StepResult :=
  al.map (evalAssertion st)

/-- Modelled from the spec: the big-step run relation of one Verify job —
assertions are judged front to back, each contributing exactly one Step
Result to the report. -/
inductive EvalRel (st : LiveState) : List Assertion → List StepResult → Prop where
  | nil : EvalRel st [] []
  | cons (a : Assertion) (al : List Assertion) (rs : List StepResult) :
      EvalRel st al rs → EvalRel st (a :: al) (evalAssertion st a :: rs)

theorem evalRel_eq {st : LiveState} {al : List Assertion} {rs : List StepResult}
    (h : EvalRel st al rs) : rs = evaluate st al := by
  induction h with
  | nil => rfl
  | cons a al1 rs1 h1 ih => rw [ih]; rfl

theorem evalRel_evaluate (st : LiveState) (al : List Assertion) :
    EvalRel st al (evaluate st al) := by
  induction al with
  | nil => exact .nil
  | cons a al1 ih => exact .cons a al1 _ ih

/-- A sample resource for concrete runs: one ready replica. -/
def sampleResource : Resource :=
  ⟨[("image", "nginx:1.14.2")], 1, [("Available", true)], ["started server"]⟩

/-- A sample reachable live state holding the sample resource. -/
def sampleState : LiveState :=
  ⟨true, [("deploy/nginx-deployment", sampleResource)]⟩

/-- A sample assertion list for concrete runs. -/
def sampleAssertions : List Assertion :=
  [⟨"deploy/nginx-deployment", .readyReplicasAtLeast 3⟩,
   ⟨"deploy/nginx-deployment", .resExists⟩]

/-! ## Spec-modelled Event Publisher -/

/-- Modelled from the spec: one streamed Event — its job id, the
monotonically increasing sequence number within that job, and a payload. -/
structure Event where
  jobId : String
  seq : Nat
  payload : String
deriving Repr, DecidableEq

/-- The per-job slice of the publisher's buffered event log, in publish
order. -/
def jobEvents (log : List Event) (j : String) : List Event :=
  log.filter (fun e => e.jobId == j)

/-- Modelled from the spec: `subscribe(job_id, from_sequence)` first
replays the buffered events of the job whose sequence number exceeds the
resume token `k`, in buffer order. -/
def replayFrom (log : List Event) (j : String) (k : Nat) : List Event :=
  (jobEvents log j).filter (fun e => k < e.seq)

/-- A sample event log with two interleaved jobs. -/
def sampleLog : List Event :=
  [⟨"job1", 1, "job started"⟩, ⟨"job1", 2, "step started"⟩,
   ⟨"job2", 1, "job started"⟩, ⟨"job1", 3, "job completed"⟩]

/-! ## Claim theorems on the spec-modelled components -/

/-- C3: the Verification Report covers every declared Assertion — the
number of Step Results equals the number of Assertions, whatever each
step's outcome — and the Console renders exactly one entry per validation
result it is given. -/
theorem report_covers_every_assertion (st : LiveState) (al : List Assertion)
    (rs : List ValidationResult) :
    (evaluate st al).length = al.length ∧
    (renderConsole rs).length = rs.length := by
  constructor <;> simp [evaluate, renderConsole]

/-- C4: evaluation and rendering preserve order — the i-th Step Result is
the judgment of the i-th Assertion, and the i-th rendered console row is
the rendering of the i-th validation result. -/
theorem report_preserves_order (st : LiveState) (al : List Assertion)
    (rs : List ValidationResult) (i : Nat) :
    (evaluate st al)[i]? = (al[i]?).map (evalAssertion st) ∧
    (renderConsole rs)[i]? = (rs[i]?).map renderEntry := by
  constructor <;> simp [evaluate, renderConsole]

/-- C5: one Verify run is deterministic — two runs over the same live
state and assertion list produce the same Step Result list — and the
frontend validation entry point publishes the same result list from any
two starting states. -/
theorem verify_rerun_deterministic (st : LiveState) (al : List Assertion)
    (r1 r2 : List StepResult) (h1 : EvalRel st al r1) (h2 : EvalRel st al r2) :
    r1 = r2 ∧ ∀ s s2 : AppState,
      (runValidation s).validationResults = (runValidation s2).validationResults := by
  refine ⟨(evalRel_eq h1).trans (evalRel_eq h2).symm, fun s s2 => rfl⟩

/-- C5, witness: `verify_rerun_deterministic` on two runs over the sample
live state and assertion list. -/
theorem verify_rerun_deterministic_app :
    evaluate sampleState sampleAssertions = evaluate sampleState sampleAssertions ∧
    ∀ s s2 : AppState,
      (runValidation s).validationResults = (runValidation s2).validationResults :=
  verify_rerun_deterministic sampleState sampleAssertions _ _
    (evalRel_evaluate sampleState sampleAssertions)
    (evalRel_evaluate sampleState sampleAssertions)

/-- C6: a ready_replicas_at_least assertion whose target was inspected
fails — never errors — while the observed ready-replica count is below the
expected value, reporting the observed count, and passes once the observed
count reaches the expected value. -/
theorem ready_replicas_fail_then_pass (st : LiveState) (sel : String)
    (r : Resource) (n : Nat) (hreach : st.reachable = true)
    (hres : lookupResource st sel = some r) :
    (r.readyReplicas < n →
      (evalAssertion st ⟨sel, .readyReplicasAtLeast n⟩).status = Status3.failed ∧
      (evalAssertion st ⟨sel, .readyReplicasAtLeast n⟩).observed =
        toString r.readyReplicas) ∧
    (n ≤ r.readyReplicas →
      (evalAssertion st ⟨sel, .readyReplicasAtLeast n⟩).status = Status3.passed) := by
  constructor
  · intro hlt
    have hn : ¬ n ≤ r.readyReplicas := not_le.mpr hlt
    constructor <;> simp [evalAssertion, hreach, hres, applyPredicate, hn]
  · intro hle
    simp [evalAssertion, hreach, hres, applyPredicate, hle]

/-- C6, witness: `ready_replicas_fail_then_pass` on the sample state —
expecting 3 of 1 ready replicas fails with observed count 1, expecting 1
passes. -/
theorem ready_replicas_fail_then_pass_app :
    ((evalAssertion sampleState ⟨"deploy/nginx-deployment",
        .readyReplicasAtLeast 3⟩).status = Status3.failed ∧
     (evalAssertion sampleState ⟨"deploy/nginx-deployment",
        .readyReplicasAtLeast 3⟩).observed = toString sampleResource.readyReplicas) ∧
    (evalAssertion sampleState ⟨"deploy/nginx-deployment",
        .readyReplicasAtLeast 1⟩).status = Status3.passed :=
  ⟨(ready_replicas_fail_then_pass sampleState "deploy/nginx-deployment"
      sampleResource 3 rfl rfl).1 (by decide),
   (ready_replicas_fail_then_pass sampleState "deploy/nginx-deployment"
      sampleResource 1 rfl rfl).2 (by decide)⟩

/-- C7: a subscriber resuming from sequence `k` is delivered no event with
sequence at most `k`, is delivered every already-published event of its
job with sequence above `k` exactly once, and sees them in non-decreasing
sequence order — given the publisher's invariant that the job's buffered
sequence numbers strictly increase in publish order. -/
theorem subscribe_resume_gap_free (log : List Event) (j : String) (k : Nat)
    (hmono : (jobEvents log j).Pairwise (fun a b => a.seq < b.seq)) :
    (∀ e ∈ replayFrom log j k, k < e.seq) ∧
    (∀ e ∈ log, e.jobId = j → k < e.seq → (replayFrom log j k).count e = 1) ∧
    (replayFrom log j k).Pairwise (fun a b => a.seq ≤ b.seq) := by
  refine ⟨fun e he => ?_, fun e he hj hk => ?_, ?_⟩
  · have := (List.mem_filter.mp he).2
    exact of_decide_eq_true this
  · have hmem : e ∈ replayFrom log j k := by
      refine List.mem_filter.mpr ⟨List.mem_filter.mpr ⟨he, ?_⟩, ?_⟩
      · exact beq_iff_eq.mpr hj
      · exact decide_eq_true hk
    have hnodup : (replayFrom log j k).Nodup := by
      refine List.Pairwise.imp ?_ (List.Pairwise.filter _ hmono)
      intro a b hab heq
      rw [heq] at hab
      exact lt_irrefl _ hab
    exact List.count_eq_one_of_mem hnodup hmem
  · exact List.Pairwise.imp (fun hab => le_of_lt hab) (List.Pairwise.filter _ hmono)

/-- C7, witness: `subscribe_resume_gap_free` on the sample log, job
"job1", resume token 1. -/
theorem subscribe_resume_gap_free_app :
    (∀ e ∈ replayFrom sampleLog "job1" 1, 1 < e.seq) ∧
    (∀ e ∈ sampleLog, e.jobId = "job1" → 1 < e.seq →
      (replayFrom sampleLog "job1" 1).count e = 1) ∧
    (replayFrom sampleLog "job1" 1).Pairwise (fun a b => a.seq ≤ b.seq) :=
  subscribe_resume_gap_free sampleLog "job1" 1 (by decide)

/-- C10: changing the current exercise resets the session — the editor
code becomes the new exercise's template (the empty string when it has
none), the validation results are cleared, and the active right tab
returns to the code tab. -/
theorem exercise_change_resets_session (s : AppState) (idx : Nat)
    (ex : Exercise) (h : EXERCISES[idx]? = some ex) :
    selectExercise s idx =
      some { s with
        currentExerciseIdx := idx
        code := ex.template.getD ""
        validationResults := none
        activeRightTab := "code" } := by
  simp [selectExercise, h, exerciseChangeEffect]

/-- C10, witness: `exercise_change_resets_session` from the initial state
to the quiz exercise ex2, which has no template — the editor code resets
to the empty string. -/
theorem exercise_change_resets_session_app :
    selectExercise appInit 1 =
      some { appInit with
        currentExerciseIdx := 1
        code := ""
        validationResults := none
        activeRightTab := "code" } :=
  exercise_change_resets_session appInit 1
    ⟨"ex2", "quiz", "2. Pod Lifecycle Knowledge", "Pods", none⟩ rfl

end KP
